import Mathlib

/-!
Shallow embedding of the XBee AT-command session manager found in
`src/libraries/XBee/XBee_AT_SerialBreak/XBee_AT_SerialBreak.ino`.

Modelling conventions:
* bytes are `Nat` values (0..255); C strings become `List Nat` holding the
  characters before the terminating NUL;
* `uint32_t` millisecond arithmetic (`Milliseconds() - msLastCmd`) is modelled
  by `usub32`, explicit subtraction modulo `2^32`;
* the busy-wait loop of `atRspReceive` is driven by an explicit list `ticks`
  of successive `Milliseconds()` readings taken at each iteration of the
  `while` test; exhausting the list models the clock passing the deadline
  (`Milliseconds()` grows without bound in reality, so the loop always
  terminates this way when no carriage return is consumed);
* `ClearCore::XBee.AvailableForRead()` / `CharGet()` are modelled by a queue
  `List Nat` of bytes sitting in the receive buffer: the queue being nonempty
  is availability, and - exactly as in the source - a byte is popped only on
  the code path that actually calls `CharGet()`;
* observable side effects on the XBee transport (`Speed`, `SerialBreak`,
  `Send`, `delay`, and the `exitFail` report) are accumulated in an event
  list; `Serial.println` goes to the USB console, not to the XBee transport,
  and is not an event;
* the two back-to-back `Milliseconds()` calls inside `atCommandSend` (the
  staleness test and the timestamp reset) are modelled as a single instant
  `now`.
-/

/-- C macro `TIMEOUT` = 10000 (line 15 of the source). -/
def TIMEOUT : Nat := 10000

/-- Wrapping `uint32_t` subtraction `a - b`, for `a b < 2^32`. -/
def usub32 (a b : Nat) : Nat := (a + 4294967296 - b) % 4294967296

/-- Content of `OK_MSG` (`"OK\0"` as a C string is just `OK`). -/
def okMsg : List Nat := [79, 75]

/-- Content of `ERR_MSG` (`"ERROR\0"` as a C string is just `ERROR`). -/
def errMsg : List Nat := [69, 82, 82, 79, 82]

/-- The bytes of the command `"AT"`. -/
def atCmd : List Nat := [65, 84]

/-- The bytes of `"ATBD "` built by `strncpy(sendStr, "ATBD ", 5)`. -/
def atbdCmd : List Nat := [65, 84, 66, 68, 32]

/-- The bytes of the command `"ATWR"`. -/
def atwrCmd : List Nat := [65, 84, 87, 82]

/-- The bytes of the command `"ATCN"`. -/
def atcnCmd : List Nat := [65, 84, 67, 78]

/-- The global `rspStrSize = 10` (line 28 of the source). -/
def rspStrSize : Nat := 10

/-- C `strcmp` on NUL-terminated strings; the end of a list is the NUL, and
an explicit `0` element inside a list is an embedded NUL that also ends the
C string. -/
def strcmp : List Nat → List Nat → Int
  | [], [] => 0
  | [], b :: _ => 0 - (b : Int)
  | a :: _, [] => (a : Int)
  | a :: as, b :: bs =>
    if a ≠ b then (a : Int) - (b : Int)
    else if a = 0 then 0 else strcmp as bs

/-- The check the source performs after every exchange:
`strcmp(rspStr, OK_MSG)` equal to zero (lines 57, 63, 110, 116, 122). -/
def isAffirmative (rsp : List Nat) : Bool := strcmp rsp okMsg == 0

/-- The distinct `exitFail` message literals of `DeviceSpeed`, one tag per
string (lines 58, 64, 101, 111, 117, 123). -/
inductive FailMsg where
  | establishMode   -- "Failed to establish AT Command Mode."
  | verifyMode      -- "Failed to verify AT Command Mode."
  | invalidBaud     -- "Specified baud rate is invalid."
  | setBaud         -- "Failed to set the specified baud rate."
  | writeFirmware   -- "Failed to write to firmware."
  | exitMode        -- "Failed to force exit AT Command Mode."
  deriving DecidableEq

/-- Observable actions on the XBee transport plus the failure reports. -/
inductive Ev where
  | speed (r : Nat)        -- ClearCore::XBee.Speed(r)
  | sbreak (b : Bool)      -- ClearCore::XBee.SerialBreak(b)
  | wait (ms : Nat)        -- delay(ms)
  | send (bytes : List Nat) -- ClearCore::XBee.Send(str)
  | fail (m : FailMsg)     -- exitFail(message), the println part
  deriving DecidableEq

/-- Mutable program state: the XBee software speed setting, the global
`msLastCmd`, the caller response buffer `rspStr` (its logical C-string
content), and the trace of transport events so far. -/
structure St where
  xbeeBaud : Nat
  msLastCmd : Nat
  rsp : List Nat
  evs : List Ev
  deriving DecidableEq

/-- The external inputs consumed by one command exchange: the
`Milliseconds()` reading at dispatch, the clock readings of the receive
loop, and the bytes queued in the transport receive buffer. -/
structure Exchange where
  now : Nat
  ticks : List Nat
  queue : List Nat

/-- The loop of `atRspReceive` (lines 166-178).  Arguments after the two
fixed ones: `rspIndex`, the accumulated buffer content, the remaining clock
readings, the receive queue.  Returns the `bool` result, the final buffer
content, and the bytes left unconsumed in the receive queue. -/
def atRspReceiveAux (m rspLen : Nat) :
    Nat → List Nat → List Nat → List Nat → Bool × List Nat × List Nat
  | _, acc, [], queue => (false, acc, queue)
  | i, acc, t :: ts, [] =>
    if usub32 t m < TIMEOUT then atRspReceiveAux m rspLen i acc ts []
    else (false, acc, [])
  | i, acc, t :: ts, b :: rest =>
    if usub32 t m < TIMEOUT then
      if i < rspLen - 1 then
        if b = 13 then (true, acc, rest)
        else atRspReceiveAux m rspLen (i + 1) (acc ++ [b]) ts rest
      else atRspReceiveAux m rspLen i acc ts (b :: rest)
    else (false, acc, b :: rest)

/-- `atRspReceive` (lines 162-181): `rspIndex = 0` and `rsp[0] = '\0'`
before the loop; `m` is the value of `msLastCmd` when the loop starts. -/
def atRspReceive (m rspLen : Nat) (ticks queue : List Nat) :
    Bool × List Nat × List Nat :=
  atRspReceiveAux m rspLen 0 [] ticks queue

/-- `atCommandSend` (lines 146-157): early return when more than `TIMEOUT`
has elapsed since `msLastCmd`; otherwise send the command, send `"\r"`,
reset `msLastCmd`, and run `atRspReceive`.  Returns the new state and the
unconsumed receive queue. -/
def atCommandSend (cmd : List Nat) (rspLen now : Nat)
    (ticks queue : List Nat) (st : St) : St × List Nat :=
  if usub32 now st.msLastCmd > TIMEOUT then
    (st, queue)
  else
    let r := atRspReceive now rspLen ticks queue
    ({ st with msLastCmd := now,
               rsp := r.2.1,
               evs := st.evs ++ [Ev.send cmd, Ev.send [13]] }, r.2.2)

/-- `AtModeDefault` (lines 132-141): serial break asserted, held 6000 ms,
deasserted; `msLastCmd := Milliseconds()` (reading `t1`); one
`atRspReceive` cycle whose boolean result is discarded; `delay(1)`;
`msLastCmd := Milliseconds()` again (reading `t2`). -/
def AtModeDefault (t1 t2 : Nat) (ticks queue : List Nat) (st : St) :
    St × List Nat :=
  let r := atRspReceive t1 rspStrSize ticks queue
  ({ st with msLastCmd := t2,
             rsp := r.2.1,
             evs := st.evs ++
               [Ev.sbreak true, Ev.wait 6000, Ev.sbreak false, Ev.wait 1] },
   r.2.2)

/-- `exitFail` (lines 186-189): print the message and `delay(600)`; note
that it neither returns from the caller nor halts the program. -/
def exitFail (m : FailMsg) (st : St) : St :=
  { st with evs := st.evs ++ [Ev.fail m, Ev.wait 600] }

/-- `ClearCore::XBee.Speed(r)`: the setter of the software speed. -/
def xbeeSpeedSet (r : Nat) (st : St) : St :=
  { st with xbeeBaud := r, evs := st.evs ++ [Ev.speed r] }

/-- The `switch (speed)` of `DeviceSpeed` (lines 69-103) as the device-code
lookup; `none` is the `default` branch, in which `baudRate` keeps its
initial value `'0'`. -/
def baudCode (speed : Nat) : Option Nat :=
  if speed = 2400 then some 49        -- '1'
  else if speed = 4800 then some 50   -- '2'
  else if speed = 9600 then some 51   -- '3'
  else if speed = 19200 then some 52  -- '4'
  else if speed = 38400 then some 53  -- '5'
  else if speed = 57600 then some 54  -- '6'
  else if speed = 115200 then some 55 -- '7'
  else if speed = 230400 then some 56 -- '8'
  else if speed = 460800 then some 57 -- '9'
  else if speed = 921600 then some 65 -- 'A'
  else none

/-- `DeviceSpeed` (lines 51-127).  External inputs: `t1`, `t2`, `ticks0`,
`queue0` feed `AtModeDefault`; `e1`..`e4` feed the four `atCommandSend`
calls (AT, ATBD x, ATWR, ATCN) in program order. -/
def DeviceSpeed (t1 t2 : Nat) (ticks0 queue0 : List Nat)
    (e1 e2 e3 e4 : Exchange) (st0 : St) : St :=
  let speed := st0.xbeeBaud
  let s1 := xbeeSpeedSet 9600 st0
  let s2 := (AtModeDefault t1 t2 ticks0 queue0 s1).1
  let s3 := if isAffirmative s2.rsp then s2 else exitFail FailMsg.establishMode s2
  let s4 := (atCommandSend atCmd rspStrSize e1.now e1.ticks e1.queue s3).1
  let s5 := if isAffirmative s4.rsp then s4 else exitFail FailMsg.verifyMode s4
  let s6 := match baudCode speed with
            | some _ => s5
            | none => exitFail FailMsg.invalidBaud s5
  let baudRate := (baudCode speed).getD 48
  let s7 := (atCommandSend (atbdCmd ++ [baudRate]) rspStrSize
               e2.now e2.ticks e2.queue s6).1
  let s8 := if isAffirmative s7.rsp then s7 else exitFail FailMsg.setBaud s7
  let s9 := (atCommandSend atwrCmd rspStrSize e3.now e3.ticks e3.queue s8).1
  let s10 := if isAffirmative s9.rsp then s9 else exitFail FailMsg.writeFirmware s9
  let s11 := (atCommandSend atcnCmd rspStrSize e4.now e4.ticks e4.queue s10).1
  let s12 := if isAffirmative s11.rsp then s11 else exitFail FailMsg.exitMode s11
  xbeeSpeedSet speed s12

/-- All bytes handed to `ClearCore::XBee.Send` over a trace, in order. -/
def sentBytes (evs : List Ev) : List Nat :=
  evs.foldr (fun e acc => match e with | Ev.send bs => bs ++ acc | _ => acc) []

/-- C5: a dispatch attempted when strictly more than `TIMEOUT` = 10000 ms
(in wrapping 32-bit arithmetic) elapsed since `msLastCmd` is rejected by the
early return of `atCommandSend`: the state (hence the event trace: no bytes
sent) and the receive queue are untouched. -/
theorem staleDispatchRejectedNoBytes (cmd : List Nat) (rspLen now : Nat)
    (ticks queue : List Nat) (st : St)
    (h : usub32 now st.msLastCmd > TIMEOUT) :
    atCommandSend cmd rspLen now ticks queue st = (st, queue) := by
  unfold atCommandSend
  rw [if_pos h]

/-- Witness for `staleDispatchRejectedNoBytes` at a concrete stale input. -/
theorem staleDispatchRejectedNoBytes_witness :
    usub32 20000 0 > TIMEOUT ∧
    atCommandSend atCmd 10 20000 [20001] [79] ⟨9600, 0, [], []⟩ =
      (⟨9600, 0, [], []⟩, [79]) :=
  ⟨by decide,
   staleDispatchRejectedNoBytes atCmd 10 20000 [20001] [79] ⟨9600, 0, [], []⟩
     (by decide)⟩

/-- C10: the stale early return of `atCommandSend` leaves the caller's
response buffer exactly as the previous exchange left it; in particular a
buffer holding `OK` from the previous exchange still classifies as
affirmative after the rejected dispatch. -/
theorem staleDispatchKeepsOldResponse (cmd : List Nat) (rspLen now : Nat)
    (ticks queue : List Nat) (st : St)
    (h : usub32 now st.msLastCmd > TIMEOUT) :
    (atCommandSend cmd rspLen now ticks queue st).1.rsp = st.rsp ∧
    (isAffirmative st.rsp = true →
      isAffirmative (atCommandSend cmd rspLen now ticks queue st).1.rsp = true) := by
  unfold atCommandSend
  rw [if_pos h]
  exact ⟨rfl, fun hp => hp⟩

/-- Witness for `staleDispatchKeepsOldResponse`: a stale-rejected dispatch
whose preceding response was `OK` still reads as affirmative. -/
theorem staleDispatchKeepsOldResponse_witness :
    (atCommandSend atcnCmd 10 20000 [20001] [] ⟨9600, 0, [79, 75], []⟩).1.rsp
      = [79, 75] ∧
    isAffirmative
      (atCommandSend atcnCmd 10 20000 [20001] [] ⟨9600, 0, [79, 75], []⟩).1.rsp
      = true := by
  have h := staleDispatchKeepsOldResponse atcnCmd 10 20000 [20001] []
    ⟨9600, 0, [79, 75], []⟩ (by decide)
  exact ⟨h.1, h.2 (by decide)⟩

/-- C8 amended: a non-stale dispatch sends the command bytes followed by
exactly one carriage-return byte, resets `msLastCmd` to `now`, runs the
response reader starting from that same instant (the reader's deadline is
the same `TIMEOUT` constant, baked into `atRspReceive`), and stores the
reader's content in the caller's buffer - while the reader's boolean
completion status appears nowhere in the result. -/
theorem nonStaleDispatchShape (cmd : List Nat) (rspLen now : Nat)
    (ticks queue : List Nat) (st : St)
    (h : usub32 now st.msLastCmd ≤ TIMEOUT) :
    atCommandSend cmd rspLen now ticks queue st =
      ({ xbeeBaud := st.xbeeBaud, msLastCmd := now,
         rsp := (atRspReceive now rspLen ticks queue).2.1,
         evs := st.evs ++ [Ev.send cmd, Ev.send [13]] },
       (atRspReceive now rspLen ticks queue).2.2) := by
  unfold atCommandSend
  rw [if_neg (by omega)]

/-- Witness for `nonStaleDispatchShape` at a concrete non-stale input. -/
theorem nonStaleDispatchShape_witness :
    usub32 5 0 ≤ TIMEOUT ∧
    atCommandSend atCmd 10 5 [6, 7, 8] [79, 75, 13] ⟨9600, 0, [], []⟩ =
      (⟨9600, 5, [79, 75], [Ev.send atCmd, Ev.send [13]]⟩, []) := by
  constructor
  · decide
  · rw [nonStaleDispatchShape atCmd 10 5 [6, 7, 8] [79, 75, 13]
      ⟨9600, 0, [], []⟩ (by decide)]
    decide

/-- C8 counterexample: the dispatcher does not return the reader's
completion status.  Two dispatches whose reads end differently (one sees the
terminator, one times out) produce identical dispatcher results, because
`atCommandSend` discards the boolean returned by `atRspReceive`. -/
theorem completionStatusNotReturned :
    (atRspReceive 5 10 [6, 7, 8] [79, 75, 13]).1 = true ∧
    (atRspReceive 5 10 [6, 7, 8] [79, 75]).1 = false ∧
    (atCommandSend atCmd 10 5 [6, 7, 8] [79, 75, 13] ⟨9600, 0, [], []⟩).1 =
      (atCommandSend atCmd 10 5 [6, 7, 8] [79, 75] ⟨9600, 0, [], []⟩).1 := by
  decide

/-- C9: `AtModeDefault` performs exactly the break-assert / 6000 ms hold /
break-deassert sequence, resets `msLastCmd` to the first clock reading `t1`
(the reader cycle starts from `t1`), runs one reader cycle whose content is
stored but never checked, delays 1 ms, and resets `msLastCmd` a second time
to `t2`.  Its event trace does not depend on the reader's input (the
response content is not checked), and it appends no failure event. -/
theorem modeEntrySequence (t1 t2 : Nat) (ticks queue ticks2 queue2 : List Nat)
    (st : St) :
    (AtModeDefault t1 t2 ticks queue st).1 =
      { xbeeBaud := st.xbeeBaud, msLastCmd := t2,
        rsp := (atRspReceive t1 rspStrSize ticks queue).2.1,
        evs := st.evs ++
          [Ev.sbreak true, Ev.wait 6000, Ev.sbreak false, Ev.wait 1] } ∧
    (AtModeDefault t1 t2 ticks queue st).1.evs =
      (AtModeDefault t1 t2 ticks2 queue2 st).1.evs ∧
    (∀ f : FailMsg, Ev.fail f ∈ (AtModeDefault t1 t2 ticks queue st).1.evs ↔
      Ev.fail f ∈ st.evs) := by
  refine ⟨rfl, rfl, fun f => ?_⟩
  simp [AtModeDefault, List.mem_append]

/-- C1 (code bug): with a completely silent transport and target rate 19200,
every step fails - including `ExitMode` (`ATCN`) - yet `DeviceSpeed` still
executes `ClearCore::XBee.Speed(speed)` as its very last action, because
`exitFail` only logs and delays.  The final baud equals the target, and the
very last transport event is that speed change, emitted after the recorded
`ExitMode` failure. -/
theorem resyncRunsDespiteExitModeFailure :
    (DeviceSpeed 0 0 [] [] ⟨0, [], []⟩ ⟨0, [], []⟩ ⟨0, [], []⟩ ⟨0, [], []⟩
      ⟨19200, 0, [], []⟩).xbeeBaud = 19200 ∧
    Ev.fail FailMsg.exitMode ∈
      (DeviceSpeed 0 0 [] [] ⟨0, [], []⟩ ⟨0, [], []⟩ ⟨0, [], []⟩ ⟨0, [], []⟩
        ⟨19200, 0, [], []⟩).evs ∧
    (DeviceSpeed 0 0 [] [] ⟨0, [], []⟩ ⟨0, [], []⟩ ⟨0, [], []⟩ ⟨0, [], []⟩
      ⟨19200, 0, [], []⟩).evs.getLast? = some (Ev.speed 19200) := by
  decide

/-- C3 (code bug): when the `AT` probe of `VerifyMode` answers `ERROR` (and
every other exchange answers `OK`), `DeviceSpeed` records the verify failure
but still dispatches the later `ATBD`, `ATWR` and `ATCN` commands: `exitFail`
does not abort the procedure. -/
theorem laterCommandsDispatchedAfterNegativeVerify :
    Ev.fail FailMsg.verifyMode ∈
      (DeviceSpeed 0 0 [1, 2, 3] [79, 75, 13]
        ⟨0, [1, 2, 3, 4, 5, 6], [69, 82, 82, 79, 82, 13]⟩
        ⟨0, [1, 2, 3], [79, 75, 13]⟩ ⟨0, [1, 2, 3], [79, 75, 13]⟩
        ⟨0, [1, 2, 3], [79, 75, 13]⟩ ⟨19200, 0, [], []⟩).evs ∧
    Ev.send (atbdCmd ++ [52]) ∈
      (DeviceSpeed 0 0 [1, 2, 3] [79, 75, 13]
        ⟨0, [1, 2, 3, 4, 5, 6], [69, 82, 82, 79, 82, 13]⟩
        ⟨0, [1, 2, 3], [79, 75, 13]⟩ ⟨0, [1, 2, 3], [79, 75, 13]⟩
        ⟨0, [1, 2, 3], [79, 75, 13]⟩ ⟨19200, 0, [], []⟩).evs ∧
    Ev.send atwrCmd ∈
      (DeviceSpeed 0 0 [1, 2, 3] [79, 75, 13]
        ⟨0, [1, 2, 3, 4, 5, 6], [69, 82, 82, 79, 82, 13]⟩
        ⟨0, [1, 2, 3], [79, 75, 13]⟩ ⟨0, [1, 2, 3], [79, 75, 13]⟩
        ⟨0, [1, 2, 3], [79, 75, 13]⟩ ⟨19200, 0, [], []⟩).evs ∧
    Ev.send atcnCmd ∈
      (DeviceSpeed 0 0 [1, 2, 3] [79, 75, 13]
        ⟨0, [1, 2, 3, 4, 5, 6], [69, 82, 82, 79, 82, 13]⟩
        ⟨0, [1, 2, 3], [79, 75, 13]⟩ ⟨0, [1, 2, 3], [79, 75, 13]⟩
        ⟨0, [1, 2, 3], [79, 75, 13]⟩ ⟨19200, 0, [], []⟩).evs := by
  decide

/-- C2 counterexample: with the unsupported rate 12345 and a transport that
answers `OK` to everything, `DeviceSpeed` records the invalid-rate failure,
but only after the `AT` probe already sent bytes (the `AT` send occurs
earlier in the trace than the failure), and it then goes on to dispatch
`ATBD 0` with the residual code `'0'` - so "zero bytes sent" is false. -/
theorem unsupportedRateStillSendsBytes :
    Ev.fail FailMsg.invalidBaud ∈
      (DeviceSpeed 0 0 [1, 2, 3] [79, 75, 13] ⟨0, [1, 2, 3], [79, 75, 13]⟩
        ⟨0, [1, 2, 3], [79, 75, 13]⟩ ⟨0, [1, 2, 3], [79, 75, 13]⟩
        ⟨0, [1, 2, 3], [79, 75, 13]⟩ ⟨12345, 0, [], []⟩).evs ∧
    Ev.send atCmd ∈
      (DeviceSpeed 0 0 [1, 2, 3] [79, 75, 13] ⟨0, [1, 2, 3], [79, 75, 13]⟩
        ⟨0, [1, 2, 3], [79, 75, 13]⟩ ⟨0, [1, 2, 3], [79, 75, 13]⟩
        ⟨0, [1, 2, 3], [79, 75, 13]⟩ ⟨12345, 0, [], []⟩).evs ∧
    Ev.send (atbdCmd ++ [48]) ∈
      (DeviceSpeed 0 0 [1, 2, 3] [79, 75, 13] ⟨0, [1, 2, 3], [79, 75, 13]⟩
        ⟨0, [1, 2, 3], [79, 75, 13]⟩ ⟨0, [1, 2, 3], [79, 75, 13]⟩
        ⟨0, [1, 2, 3], [79, 75, 13]⟩ ⟨12345, 0, [], []⟩).evs ∧
    (DeviceSpeed 0 0 [1, 2, 3] [79, 75, 13] ⟨0, [1, 2, 3], [79, 75, 13]⟩
        ⟨0, [1, 2, 3], [79, 75, 13]⟩ ⟨0, [1, 2, 3], [79, 75, 13]⟩
        ⟨0, [1, 2, 3], [79, 75, 13]⟩ ⟨12345, 0, [], []⟩).evs.indexOf
        (Ev.send atCmd) <
      (DeviceSpeed 0 0 [1, 2, 3] [79, 75, 13] ⟨0, [1, 2, 3], [79, 75, 13]⟩
        ⟨0, [1, 2, 3], [79, 75, 13]⟩ ⟨0, [1, 2, 3], [79, 75, 13]⟩
        ⟨0, [1, 2, 3], [79, 75, 13]⟩ ⟨12345, 0, [], []⟩).evs.indexOf
        (Ev.fail FailMsg.invalidBaud) := by
  decide

/-- C4 counterexample: nine content bytes fill the buffer (`rspLen = 10`,
so capacity-1 = 9) before the carriage return; the reader then stops calling
`CharGet`, never consumes the terminator (it is still in the queue at the
end), and reports a timeout instead of `Complete`. -/
theorem fullBufferTerminatorMissed :
    atRspReceive 0 10 [1, 2, 3, 4, 5, 6, 7, 8, 9, 10, 11, 12]
        [65, 66, 67, 68, 69, 70, 71, 72, 73, 13] =
      (false, [65, 66, 67, 68, 69, 70, 71, 72, 73], [13]) := by
  decide

/-- C7 counterexample: a read that times out with partial content exactly
`OK` (the transport sent `OK` but no carriage return before the deadline) is
classified affirmative by the `strcmp`-against-`OK_MSG` check, so "any
timeout is negative" fails on the code. -/
theorem timeoutWithOkContentAffirmative :
    (atRspReceive 0 10 [1, 2, 3] [79, 75]).1 = false ∧
    isAffirmative (atRspReceive 0 10 [1, 2, 3] [79, 75]).2.1 = true := by
  decide

theorem atRspReceiveAux_noCR (m rspLen : Nat) (ticks : List Nat) :
    ∀ (queue : List Nat) (i : Nat) (acc : List Nat),
      (13 : Nat) ∉ queue.take (rspLen - 1 - i) →
      (atRspReceiveAux m rspLen i acc ticks queue).1 = false := by
  induction ticks with
  | nil => intro queue i acc _; rfl
  | cons t ts ih =>
    intro queue i acc h
    cases queue with
    | nil =>
      by_cases hdl : usub32 t m < TIMEOUT
      · simpa [atRspReceiveAux, hdl] using ih [] i acc (by simp)
      · simp [atRspReceiveAux, hdl]
    | cons b rest =>
      by_cases hdl : usub32 t m < TIMEOUT
      · by_cases hi : i < rspLen - 1
        · have hk : rspLen - 1 - i = (rspLen - 1 - (i + 1)) + 1 := by omega
          rw [hk, List.take_succ_cons] at h
          simp only [List.mem_cons, not_or] at h
          have hb : ¬ (b = 13) := fun hbe => h.1 hbe.symm
          simp only [atRspReceiveAux, if_pos hdl, if_pos hi, if_neg hb]
          exact ih rest (i + 1) (acc ++ [b]) h.2
        · simp only [atRspReceiveAux, if_pos hdl, if_neg hi]
          exact ih (b :: rest) i acc h
      · simp [atRspReceiveAux, hdl]

theorem atRspReceiveAux_drain (m rspLen : Nat) (ticks : List Nat) :
    ∀ (queue : List Nat) (i : Nat) (acc : List Nat),
      (13 : Nat) ∉ queue.take (rspLen - 1 - i) →
      (∀ t ∈ ticks, usub32 t m < TIMEOUT) →
      rspLen - 1 - i ≤ ticks.length →
      rspLen - 1 - i ≤ queue.length →
      atRspReceiveAux m rspLen i acc ticks queue =
        (false, acc ++ queue.take (rspLen - 1 - i),
         queue.drop (rspLen - 1 - i)) := by
  induction ticks with
  | nil =>
    intro queue i acc _ _ hlt _
    have h0 : rspLen - 1 - i = 0 := by simpa using hlt
    simp [h0, atRspReceiveAux]
  | cons t ts ih =>
    intro queue i acc h hdl hlt hlq
    have hdlt : usub32 t m < TIMEOUT := hdl t (by simp)
    have hdlts : ∀ u ∈ ts, usub32 u m < TIMEOUT := fun u hu => hdl u (by simp [hu])
    cases queue with
    | nil =>
      simp only [atRspReceiveAux, if_pos hdlt]
      have h0 : rspLen - 1 - i = 0 := by simpa using hlq
      exact ih [] i acc (by simp) hdlts (by omega) hlq
    | cons b rest =>
      by_cases hi : i < rspLen - 1
      · have hk : rspLen - 1 - i = (rspLen - 1 - (i + 1)) + 1 := by omega
        rw [hk, List.take_succ_cons] at h
        simp only [List.mem_cons, not_or] at h
        have hb : ¬ (b = 13) := fun hbe => h.1 hbe.symm
        simp only [atRspReceiveAux, if_pos hdlt, if_pos hi, if_neg hb]
        rw [ih rest (i + 1) (acc ++ [b]) h.2 hdlts
          (by simp at hlt; omega) (by simp at hlq; omega)]
        rw [hk, List.take_succ_cons, List.drop_succ_cons]
        simp
      · have h0 : rspLen - 1 - i = 0 := by omega
        simp only [atRspReceiveAux, if_pos hdlt, if_neg hi]
        exact ih (b :: rest) i acc h hdlts (by omega) (by simp [h0])

theorem atRspReceiveAux_complete (m rspLen : Nat) (pre : List Nat) :
    ∀ (ticks post acc : List Nat) (i : Nat),
      (13 : Nat) ∉ pre →
      i + pre.length < rspLen - 1 →
      (∀ t ∈ ticks, usub32 t m < TIMEOUT) →
      pre.length + 1 ≤ ticks.length →
      atRspReceiveAux m rspLen i acc ticks (pre ++ 13 :: post) =
        (true, acc ++ pre, post) := by
  induction pre with
  | nil =>
    intro ticks post acc i _ hi hdl hlen
    cases ticks with
    | nil => simp at hlen
    | cons t ts =>
      have hdlt : usub32 t m < TIMEOUT := hdl t (by simp)
      have hi0 : i < rspLen - 1 := by simpa using hi
      simp [atRspReceiveAux, hdlt, hi0]
  | cons a pre ih =>
    intro ticks post acc i hno hi hdl hlen
    cases ticks with
    | nil => simp at hlen
    | cons t ts =>
      have hdlt : usub32 t m < TIMEOUT := hdl t (by simp)
      have hi0 : i < rspLen - 1 := by simp at hi; omega
      have ha : ¬ (a = 13) := fun hae => hno (by simp [hae])
      rw [List.cons_append]
      simp only [atRspReceiveAux, if_pos hdlt, if_pos hi0, if_neg ha]
      rw [ih ts post (acc ++ [a]) (i + 1) (fun hmem => hno (by simp [hmem]))
        (by simp at hi ⊢; omega) (fun u hu => hdl u (by simp [hu]))
        (by simp at hlen ⊢; omega)]
      simp

theorem atRspReceiveAux_contentShape (m rspLen : Nat) (ticks : List Nat) :
    ∀ (queue acc : List Nat) (i : Nat),
      ∃ c rest2, (atRspReceiveAux m rspLen i acc ticks queue).2.1 = acc ++ c ∧
        queue = c ++ rest2 := by
  induction ticks with
  | nil => intro queue acc i; exact ⟨[], queue, by simp [atRspReceiveAux], rfl⟩
  | cons t ts ih =>
    intro queue acc i
    cases queue with
    | nil =>
      by_cases hdlt : usub32 t m < TIMEOUT
      · obtain ⟨c, r2, hc, hq⟩ := ih [] acc i
        exact ⟨c, r2, by simpa [atRspReceiveAux, hdlt] using hc, hq⟩
      · exact ⟨[], [], by simp [atRspReceiveAux, hdlt], rfl⟩
    | cons b rest =>
      by_cases hdlt : usub32 t m < TIMEOUT
      · by_cases hi : i < rspLen - 1
        · by_cases hb : b = 13
          · exact ⟨[], b :: rest, by simp [atRspReceiveAux, hdlt, hi, hb], rfl⟩
          · obtain ⟨c, r2, hc, hq⟩ := ih rest (acc ++ [b]) (i + 1)
            refine ⟨b :: c, r2, ?_, by simp [hq]⟩
            simp only [atRspReceiveAux, if_pos hdlt, if_pos hi, if_neg hb]
            rw [hc]
            simp
        · obtain ⟨c, r2, hc, hq⟩ := ih (b :: rest) acc i
          exact ⟨c, r2, by simpa [atRspReceiveAux, hdlt, hi] using hc, hq⟩
      · exact ⟨[], b :: rest, by simp [atRspReceiveAux, hdlt], rfl⟩

theorem strcmp_eq_zero_iff (xs : List Nat) :
    ∀ ys : List Nat, strcmp xs ys = 0 ↔
      xs.takeWhile (fun b => b != 0) = ys.takeWhile (fun b => b != 0) := by
  induction xs with
  | nil =>
    intro ys
    cases ys with
    | nil => simp [strcmp]
    | cons b bs =>
      by_cases hb : b = 0
      · simp [strcmp, hb, List.takeWhile]
      · simp only [strcmp, List.takeWhile]
        constructor
        · intro h0
          exfalso
          omega
        · intro hw
          exfalso
          simp [show (b != 0) = true by simpa using hb] at hw
  | cons a as ih =>
    intro ys
    cases ys with
    | nil =>
      by_cases ha : a = 0
      · simp [strcmp, ha, List.takeWhile]
      · simp only [strcmp, List.takeWhile]
        constructor
        · intro h0
          exfalso
          omega
        · intro hw
          exfalso
          simp [show (a != 0) = true by simpa using ha] at hw
    | cons b bs =>
      by_cases hab : a = b
      · subst hab
        by_cases ha : a = 0
        · simp [strcmp, ha, List.takeWhile]
        · have hne : ¬ (a ≠ a) := fun hc => hc rfl
          simp only [strcmp, if_neg hne, if_neg ha, List.takeWhile,
            show (a != 0) = true by simpa using ha]
          simpa using ih bs
      · have hz : ((a : Int) - (b : Int) = 0) ↔ False := by
          constructor
          · intro h0; exact hab (by omega)
          · intro hf; exact hf.elim
        simp only [strcmp, if_pos hab, hz, List.takeWhile, false_iff]
        intro hw
        by_cases ha : a = 0
        · by_cases hbz : b = 0
          · exact hab (by omega)
          · rw [show (a != 0) = false by simp [ha],
              show (b != 0) = true by simpa using hbz] at hw
            simp at hw
        · by_cases hbz : b = 0
          · rw [show (a != 0) = true by simpa using ha,
              show (b != 0) = false by simp [hbz]] at hw
            simp at hw
          · rw [show (a != 0) = true by simpa using ha,
              show (b != 0) = true by simpa using hbz] at hw
            simp at hw
            exact hab hw.1

/-- C7 amended: the higher-layer classification is decided by content alone.
A response is affirmative exactly when its logical C-string content (the
bytes before the first NUL) equals `OK`; `ERROR` and the empty timeout
sentinel are negative; and because `atCommandSend` discards the reader's
boolean status, a timed-out read whose partial content happens to equal `OK`
is classified affirmative. -/
theorem classificationByContentOnly :
    (∀ rsp : List Nat, isAffirmative rsp = true ↔
      rsp.takeWhile (fun b => b != 0) = okMsg) ∧
    isAffirmative errMsg = false ∧
    isAffirmative [] = false ∧
    ((atRspReceive 0 10 [1, 2] [79, 75]).1 = false ∧
      isAffirmative (atRspReceive 0 10 [1, 2] [79, 75]).2.1 = true) := by
  refine ⟨fun rsp => ?_, by decide, by decide, by decide⟩
  unfold isAffirmative
  rw [beq_iff_eq, strcmp_eq_zero_iff rsp okMsg,
    show okMsg.takeWhile (fun b => b != 0) = okMsg from by decide]

/-- C4 amended: once the buffer is full (no carriage return among the first
`rspLen - 1` queued bytes), the reader can never report `Complete` - the
bound check `rspIndex < rspLen - 1` sits in front of `CharGet`, so the
terminator is never consumed - and, when the clock stays inside the deadline
long enough, the loop drains exactly the first `rspLen - 1` bytes (the
truncated content) and leaves everything else, terminator included, sitting
unread in the receive queue until the deadline elapses. -/
theorem fullBufferNeverCompletes (m rspLen : Nat) (ticks queue : List Nat)
    (hno : (13 : Nat) ∉ queue.take (rspLen - 1)) :
    (atRspReceive m rspLen ticks queue).1 = false ∧
    ((∀ t ∈ ticks, usub32 t m < TIMEOUT) → rspLen - 1 ≤ ticks.length →
      rspLen - 1 ≤ queue.length →
      atRspReceive m rspLen ticks queue =
        (false, queue.take (rspLen - 1), queue.drop (rspLen - 1))) := by
  constructor
  · exact atRspReceiveAux_noCR m rspLen ticks queue 0 [] (by simpa using hno)
  · intro hdl hlt hlq
    have h := atRspReceiveAux_drain m rspLen ticks queue 0 []
      (by simpa using hno) hdl (by simpa using hlt) (by simpa using hlq)
    simpa [atRspReceive] using h

/-- Witness for `fullBufferNeverCompletes`: nine bytes then the terminator,
with nine in-deadline clock readings. -/
theorem fullBufferNeverCompletes_witness :
    atRspReceive 0 10 [1, 2, 3, 4, 5, 6, 7, 8, 9]
        [65, 66, 67, 68, 69, 70, 71, 72, 73, 13] =
      (false, [65, 66, 67, 68, 69, 70, 71, 72, 73], [13]) := by
  have h := (fullBufferNeverCompletes 0 10 [1, 2, 3, 4, 5, 6, 7, 8, 9]
    [65, 66, 67, 68, 69, 70, 71, 72, 73, 13] (by decide)).2
    (by decide) (by decide) (by decide)
  rw [h]
  decide

/-- C6: if the queue is `pre ++ 0x0D :: post` with no carriage return in
`pre` and `pre` short enough to fit the buffer, and the clock readings stay
inside the deadline long enough to consume `pre` and the terminator, the
reader returns `Complete` with content exactly `pre` (the terminator is not
retained); if the queue contains no carriage return at all, the reader
reports a timeout for every clock schedule, and its buffer holds some
(possibly empty) prefix of the queued bytes. -/
theorem rspReaderCompleteAndTimeout (m rspLen : Nat)
    (ticks queue pre post : List Nat) :
    (queue = pre ++ 13 :: post → (13 : Nat) ∉ pre → pre.length < rspLen - 1 →
      (∀ t ∈ ticks, usub32 t m < TIMEOUT) → pre.length + 1 ≤ ticks.length →
      atRspReceive m rspLen ticks queue = (true, pre, post)) ∧
    ((13 : Nat) ∉ queue →
      (atRspReceive m rspLen ticks queue).1 = false ∧
      ∃ rest2, queue = (atRspReceive m rspLen ticks queue).2.1 ++ rest2) := by
  constructor
  · intro hq hno hlen hdl hticks
    subst hq
    have h := atRspReceiveAux_complete m rspLen pre ticks post [] 0 hno
      (by omega) hdl hticks
    simpa [atRspReceive] using h
  · intro hno
    refine ⟨atRspReceiveAux_noCR m rspLen ticks queue 0 []
      (fun hmem => hno (List.take_subset _ _ hmem)), ?_⟩
    obtain ⟨c, r2, hc, hq⟩ := atRspReceiveAux_contentShape m rspLen ticks queue [] 0
    have hc2 : (atRspReceive m rspLen ticks queue).2.1 = c := by
      simpa [atRspReceive] using hc
    exact ⟨r2, by rw [hc2, ← hq]⟩

/-- Witness for `rspReaderCompleteAndTimeout` at concrete inputs: a queue
holding `OK` then a carriage return completes with content `OK`; a queue
with no carriage return times out. -/
theorem rspReaderCompleteAndTimeout_witness :
    atRspReceive 0 10 [1, 2, 3] [79, 75, 13] = (true, [79, 75], []) ∧
    ((atRspReceive 0 10 [1, 2] [65, 66]).1 = false ∧
      ∃ rest2, ([65, 66] : List Nat) =
        (atRspReceive 0 10 [1, 2] [65, 66]).2.1 ++ rest2) :=
  ⟨(rspReaderCompleteAndTimeout 0 10 [1, 2, 3] [79, 75, 13] [79, 75] []).1
      rfl (by decide) (by decide) (by decide) (by decide),
   (rspReaderCompleteAndTimeout 0 10 [1, 2] [65, 66] [79] []).2 (by decide)⟩

/-- C2 amended: every supported rate has exactly one single-character device
code and rates outside the set have none; but an unsupported rate is not
rejected before any byte is sent: in a run at the unsupported rate 300 with
an `OK`-echoing transport, the invalid-rate failure is recorded only after
the `AT` probe already sent bytes, and the procedure then dispatches
`ATBD 0` with the residual code `'0'`. -/
theorem baudCodeSupportedSetLateReport :
    (∀ r : Nat, (baudCode r).isSome = true ↔
      (r = 2400 ∨ r = 4800 ∨ r = 9600 ∨ r = 19200 ∨ r = 38400 ∨ r = 57600 ∨
       r = 115200 ∨ r = 230400 ∨ r = 460800 ∨ r = 921600)) ∧
    (baudCode 2400 = some 49 ∧ baudCode 4800 = some 50 ∧
     baudCode 9600 = some 51 ∧ baudCode 19200 = some 52 ∧
     baudCode 38400 = some 53 ∧ baudCode 57600 = some 54 ∧
     baudCode 115200 = some 55 ∧ baudCode 230400 = some 56 ∧
     baudCode 460800 = some 57 ∧ baudCode 921600 = some 65) ∧
    (Ev.fail FailMsg.invalidBaud ∈
      (DeviceSpeed 0 0 [1, 2, 3] [79, 75, 13] ⟨0, [1, 2, 3], [79, 75, 13]⟩
        ⟨0, [1, 2, 3], [79, 75, 13]⟩ ⟨0, [1, 2, 3], [79, 75, 13]⟩
        ⟨0, [1, 2, 3], [79, 75, 13]⟩ ⟨300, 0, [], []⟩).evs ∧
     Ev.send (atbdCmd ++ [48]) ∈
      (DeviceSpeed 0 0 [1, 2, 3] [79, 75, 13] ⟨0, [1, 2, 3], [79, 75, 13]⟩
        ⟨0, [1, 2, 3], [79, 75, 13]⟩ ⟨0, [1, 2, 3], [79, 75, 13]⟩
        ⟨0, [1, 2, 3], [79, 75, 13]⟩ ⟨300, 0, [], []⟩).evs ∧
     (DeviceSpeed 0 0 [1, 2, 3] [79, 75, 13] ⟨0, [1, 2, 3], [79, 75, 13]⟩
        ⟨0, [1, 2, 3], [79, 75, 13]⟩ ⟨0, [1, 2, 3], [79, 75, 13]⟩
        ⟨0, [1, 2, 3], [79, 75, 13]⟩ ⟨300, 0, [], []⟩).evs.indexOf
        (Ev.send atCmd) <
      (DeviceSpeed 0 0 [1, 2, 3] [79, 75, 13] ⟨0, [1, 2, 3], [79, 75, 13]⟩
        ⟨0, [1, 2, 3], [79, 75, 13]⟩ ⟨0, [1, 2, 3], [79, 75, 13]⟩
        ⟨0, [1, 2, 3], [79, 75, 13]⟩ ⟨300, 0, [], []⟩).evs.indexOf
        (Ev.fail FailMsg.invalidBaud)) := by
  refine ⟨fun r => ?_, by decide, by decide⟩
  unfold baudCode
  split_ifs with h1 h2 h3 h4 h5 h6 h7 h8 h9 h10 <;> simp_all
